import Mathlib

/-!
Shallow embedding of the job scheduling and pipeline-orchestration core of
ShortSync Pro (src/bot/core/job_queue.py, src/bot/core/state_manager.py,
src/bot/core/enhanced_pipeline.py), together with theorems settling the
specification claims about it.

Conventions of the embedding:
* Python `datetime` values are abstract instants, modelled as `Int`
  (an absolute tick count; `timedelta(hours=1)` is `3600` ticks).
* Python dicts whose claims only need lookup/assignment/deletion are
  association lists with first-match lookup and in-place assignment.
* The Python stdlib `heapq` functions are modelled by their documented
  contract: `heappush` adds an element to the heap's contents, `heappop`
  removes and returns the smallest element (w.r.t. the element order).
  The internal array layout of the binary heap is not observable through
  any claim, so the queue is carried as the list of its elements.
* `asyncio` locking/timeouts and all file/database I/O are elided: each
  method becomes a pure state-transition function on the in-memory state
  it reads and writes.
-/

namespace ShortSync

/-- `JobPriority` enum from job_queue.py (LOW=0, NORMAL=1, HIGH=2, CRITICAL=3). -/
inductive JobPriority where
  | low | normal | high | critical
deriving DecidableEq, Repr

/-- `JobPriority.value` as assigned in the source. -/
def JobPriority.value : JobPriority → Nat
  | .low => 0
  | .normal => 1
  | .high => 2
  | .critical => 3

/-- `JobStatus` enum from job_queue.py. -/
inductive JobStatus where
  | pending | processing | completed | failed | cancelled
deriving DecidableEq, Repr

/-- `JobType` enum from job_queue.py (nine members). -/
inductive JobType where
  | trend_research | script_generation | asset_gathering
  | voiceover_generation | video_assembly | thumbnail_generation
  | quality_check | youtube_upload | pipeline_execution
deriving DecidableEq, Repr

/-- The nine members of `JobType`, in declaration order. -/
def jobTypeList : List JobType :=
  [.trend_research, .script_generation, .asset_gathering,
   .voiceover_generation, .video_assembly, .thumbnail_generation,
   .quality_check, .youtube_upload, .pipeline_execution]

/-- The `full_job_data` dict built by `JobQueue.create_job`
(job_id, job_type, priority, payload, created_at, status) together with the
`started_at` key that `get_job` adds when the job is released. -/
structure JobData where
  job_id : String
  job_type : JobType
  priority : Nat
  data : String
  created_at : Int
  status : JobStatus
  started_at : Option Int := none
deriving DecidableEq, Repr

/-- `PrioritizedJob` dataclass (order=True): comparison is on the
`(priority, timestamp)` pair; `job_id` and `job_data` are `compare=False`. -/
structure PrioritizedJob where
  priority : Nat
  timestamp : Int
  job_id : String
  job_data : JobData
deriving DecidableEq, Repr

/-- The ordering `dataclass(order=True)` generates for `PrioritizedJob`:
lexicographic on `(priority, timestamp)` (non-strict). -/
def pjLeB (a b : PrioritizedJob) : Bool :=
  if a.priority < b.priority then true
  else if a.priority = b.priority then
    if a.timestamp ≤ b.timestamp then true else false
  else false

/-- Strict version of the generated ordering. -/
def pjLtB (a b : PrioritizedJob) : Bool :=
  if a.priority < b.priority then true
  else if a.priority = b.priority then
    if a.timestamp < b.timestamp then true else false
  else false

theorem pjLeB_iff (a b : PrioritizedJob) :
    pjLeB a b = true ↔
      (a.priority < b.priority ∨
        (a.priority = b.priority ∧ a.timestamp ≤ b.timestamp)) := by
  unfold pjLeB
  by_cases h1 : a.priority < b.priority
  · simp [h1]
  · by_cases h2 : a.priority = b.priority
    · by_cases h3 : a.timestamp ≤ b.timestamp <;> simp [h1, h2, h3]
    · simp [h1, h2]

theorem pjLtB_iff (a b : PrioritizedJob) :
    pjLtB a b = true ↔
      (a.priority < b.priority ∨
        (a.priority = b.priority ∧ a.timestamp < b.timestamp)) := by
  unfold pjLtB
  by_cases h1 : a.priority < b.priority
  · simp [h1]
  · by_cases h2 : a.priority = b.priority
    · by_cases h3 : a.timestamp < b.timestamp <;> simp [h1, h2, h3]
    · simp [h1, h2]

theorem pjLeB_refl (a : PrioritizedJob) : pjLeB a a = true := by
  rw [pjLeB_iff]; omega

theorem pjLeB_total (a b : PrioritizedJob) : pjLeB a b = true ∨ pjLeB b a = true := by
  rw [pjLeB_iff, pjLeB_iff]; omega

theorem pjLeB_trans {a b c : PrioritizedJob}
    (h1 : pjLeB a b = true) (h2 : pjLeB b c = true) : pjLeB a c = true := by
  rw [pjLeB_iff] at h1 h2 ⊢; omega

/-- Model of `heapq.heappush`: the heap gains the element (array layout of the
binary heap abstracted to the list of elements). -/
def heappush (q : List PrioritizedJob) (x : PrioritizedJob) : List PrioritizedJob :=
  q ++ [x]

/-- Model of `heapq.heappop`: removes and returns the smallest element of the
heap (leftmost among equals, which with the strictly increasing enqueue
timestamps used by `create_job` is the unique minimum). -/
def popMin : List PrioritizedJob → Option (PrioritizedJob × List PrioritizedJob)
  | [] => none
  | x :: xs =>
    match popMin xs with
    | none => some (x, [])
    | some (m, rest) =>
      if pjLeB x m then some (x, xs) else some (m, x :: rest)

theorem popMin_nil_iff (l : List PrioritizedJob) : popMin l = none ↔ l = [] := by
  cases l with
  | nil => simp [popMin]
  | cons x xs =>
    simp only [popMin]
    cases h : popMin xs with
    | none => simp
    | some p => cases p with
      | mk m rest => by_cases hle : pjLeB x m <;> simp [hle]

theorem popMin_perm {l : List PrioritizedJob} {m : PrioritizedJob}
    {rest : List PrioritizedJob} (h : popMin l = some (m, rest)) :
    List.Perm l (m :: rest) := by
  induction l generalizing m rest with
  | nil => simp [popMin] at h
  | cons x xs ih =>
    simp only [popMin] at h
    cases hxs : popMin xs with
    | none =>
      simp only [hxs, Option.some.injEq, Prod.mk.injEq] at h
      obtain ⟨rfl, rfl⟩ := h
      rw [(popMin_nil_iff xs).mp hxs]
    | some p =>
      obtain ⟨m', rest'⟩ := p
      simp only [hxs] at h
      by_cases hle : pjLeB x m'
      · simp only [if_pos hle, Option.some.injEq, Prod.mk.injEq] at h
        obtain ⟨rfl, rfl⟩ := h
        exact List.Perm.refl _
      · simp only [if_neg hle, Option.some.injEq, Prod.mk.injEq] at h
        obtain ⟨rfl, rfl⟩ := h
        exact List.Perm.trans (List.Perm.cons x (ih hxs)) (List.Perm.swap m' x rest')

theorem popMin_min {l : List PrioritizedJob} {m : PrioritizedJob}
    {rest : List PrioritizedJob} (h : popMin l = some (m, rest)) :
    ∀ x ∈ l, pjLeB m x = true := by
  induction l generalizing m rest with
  | nil => simp [popMin] at h
  | cons x xs ih =>
    simp only [popMin] at h
    cases hxs : popMin xs with
    | none =>
      simp only [hxs, Option.some.injEq, Prod.mk.injEq] at h
      obtain ⟨rfl, rfl⟩ := h
      rw [(popMin_nil_iff xs).mp hxs]
      intro y hy
      simp at hy
      rw [hy]
      exact pjLeB_refl x
    | some p =>
      obtain ⟨m', rest'⟩ := p
      simp only [hxs] at h
      by_cases hle : pjLeB x m'
      · simp only [if_pos hle, Option.some.injEq, Prod.mk.injEq] at h
        obtain ⟨rfl, rfl⟩ := h
        intro y hy
        rcases List.mem_cons.mp hy with rfl | hy
        · exact pjLeB_refl y
        · exact pjLeB_trans hle (ih hxs y hy)
      · simp only [if_neg hle, Option.some.injEq, Prod.mk.injEq] at h
        obtain ⟨rfl, rfl⟩ := h
        intro y hy
        rcases List.mem_cons.mp hy with rfl | hy
        · rcases pjLeB_total y m' with ht | ht
          · exact absurd ht hle
          · exact ht
        · exact ih hxs y hy

theorem popMin_length {l : List PrioritizedJob} {m : PrioritizedJob}
    {rest : List PrioritizedJob} (h : popMin l = some (m, rest)) :
    rest.length + 1 = l.length :=
  ((popMin_perm h).length_eq).symm

/-- Fuel-bounded iteration of `popMin` (the fuel is an upper bound on the
queue length, so it never runs out). -/
def dequeueN : Nat → List PrioritizedJob → List PrioritizedJob
  | 0, _ => []
  | Nat.succ k, l =>
    match popMin l with
    | none => []
    | some (m, rest) => m :: dequeueN k rest

/-- The full dequeue order of a queue: the sequence obtained by repeatedly
popping the heap's minimum — the order in which `get_job` releases the
pending jobs. -/
def dequeueList (l : List PrioritizedJob) : List PrioritizedJob :=
  dequeueN l.length l

theorem dequeueN_perm :
    ∀ (n : Nat) (l : List PrioritizedJob), l.length ≤ n →
      List.Perm (dequeueN n l) l := by
  intro n
  induction n with
  | zero =>
    intro l h
    rw [List.eq_nil_of_length_eq_zero (Nat.le_zero.mp h)]
    exact List.Perm.refl _
  | succ k ih =>
    intro l h
    cases hp : popMin l with
    | none =>
      rw [(popMin_nil_iff l).mp hp]
      simp [dequeueN, popMin]
    | some p =>
      obtain ⟨m, rest⟩ := p
      simp only [dequeueN, hp]
      have hlen := popMin_length hp
      exact List.Perm.trans
        (List.Perm.cons m (ih rest (by omega))) (popMin_perm hp).symm

theorem dequeueN_sorted :
    ∀ (n : Nat) (l : List PrioritizedJob), l.length ≤ n →
      (dequeueN n l).Pairwise (fun a b => pjLeB a b = true) := by
  intro n
  induction n with
  | zero => intro l _; simp [dequeueN]
  | succ k ih =>
    intro l h
    cases hp : popMin l with
    | none => simp [dequeueN, hp]
    | some p =>
      obtain ⟨m, rest⟩ := p
      simp only [dequeueN, hp]
      have hlen := popMin_length hp
      refine List.Pairwise.cons ?_ (ih rest (by omega))
      intro b hb
      have hbrest : b ∈ rest := ((dequeueN_perm k rest (by omega)).mem_iff).mp hb
      have hbl : b ∈ l := ((popMin_perm hp).mem_iff).mpr (List.mem_cons_of_mem m hbrest)
      exact popMin_min hp b hbl

theorem dequeueList_perm (l : List PrioritizedJob) : List.Perm (dequeueList l) l :=
  dequeueN_perm l.length l (Nat.le_refl _)

theorem dequeueList_sorted (l : List PrioritizedJob) :
    (dequeueList l).Pairwise (fun a b => pjLeB a b = true) :=
  dequeueN_sorted l.length l (Nat.le_refl _)

/-- The per-type `"max_concurrent"` entry of `JobQueue.job_type_limits`. -/
def max_concurrent : JobType → Nat
  | .trend_research => 2
  | .script_generation => 3
  | .asset_gathering => 5
  | .voiceover_generation => 2
  | .video_assembly => 2
  | .thumbnail_generation => 3
  | .quality_check => 3
  | .youtube_upload => 1
  | .pipeline_execution => 2

/-- The per-type `"per_hour"` entry of `JobQueue.job_type_limits`. -/
def per_hour : JobType → Nat
  | .trend_research => 50
  | .script_generation => 100
  | .asset_gathering => 200
  | .voiceover_generation => 50
  | .video_assembly => 30
  | .thumbnail_generation => 100
  | .quality_check => 100
  | .youtube_upload => 10
  | .pipeline_execution => 20

/-- An entry of `JobQueue.active_jobs` (`job_id ↦ asyncio.Task`): the task's
job type (known from the job data it was spawned for) and whether `done()`. -/
structure ActiveTask where
  job_id : String
  job_type : JobType
  done : Bool
deriving DecidableEq, Repr

/-- The `"total"/"completed"/"failed"/"cancelled"` counter dict kept per job
type in `JobQueue.job_counters`. -/
structure Counters where
  total : Nat
  completed : Nat
  failed : Nat
  cancelled : Nat
deriving DecidableEq, Repr

def Counters.zero : Counters := ⟨0, 0, 0, 0⟩

/-- The in-memory state of `JobQueue` that the claims touch (locks, control
flags, callbacks, file paths and the database handle are elided). -/
structure QueueState where
  priority_queue : List PrioritizedJob
  active_jobs : List ActiveTask
  hourly_counters : JobType → List Int
  job_counters : JobType → Counters

/-- The queue state right after `JobQueue.initialize` on a fresh install:
empty queue, all counters zeroed (lines 117-124 of job_queue.py). -/
def emptyQueueState : QueueState :=
  { priority_queue := []
    active_jobs := []
    hourly_counters := fun _ => []
    job_counters := fun _ => Counters.zero }

/-- `JobQueue.create_job`: builds `full_job_data` (status pending), pushes a
`PrioritizedJob` keyed by `(priority.value, utcnow())` onto the heap and
increments the type's `total` counter. `now` stands for `datetime.utcnow()`
and `job_id` for the generated `uuid4` string; database persistence and
`save_queue_state` (no in-memory effect) are elided. -/
def create_job (s : QueueState) (job_type : JobType) (job_data : String)
    (priority : JobPriority) (job_id : String) (now : Int) : QueueState :=
  let full_job_data : JobData :=
    { job_id := job_id
      job_type := job_type
      priority := priority.value
      data := job_data
      created_at := now
      status := .pending
      started_at := none }
  let prioritized_job : PrioritizedJob :=
    { priority := priority.value
      timestamp := now
      job_id := job_id
      job_data := full_job_data }
  { s with
    priority_queue := heappush s.priority_queue prioritized_job
    job_counters := fun t =>
      if t = job_type then
        { s.job_counters t with total := (s.job_counters t).total + 1 }
      else s.job_counters t }

/-- `JobQueue._check_rate_limits`: the concurrent cap compares the number of
not-yet-done tasks in `active_jobs` (all of them — the source does not filter
by type) against the type's `max_concurrent`; the hourly cap counts the
type's recorded timestamps newer than one hour before `now`. -/
def check_rate_limits (s : QueueState) (job_type : JobType) (now : Int) : Bool :=
  let concurrent_count := (s.active_jobs.filter (fun j => !j.done)).length
  if concurrent_count ≥ max_concurrent job_type then false
  else
    let hour_ago := now - 3600
    let hourly_count :=
      ((s.hourly_counters job_type).filter (fun ts => hour_ago < ts)).length
    if hourly_count ≥ per_hour job_type then false
    else true

/-- In-flight tasks of one specific type (what the spec says the concurrent
cap is measured against). -/
def inFlightOfType (s : QueueState) (t : JobType) : Nat :=
  (s.active_jobs.filter (fun j => !j.done && j.job_type == t)).length

/-- Timestamps of a type's recorded calls inside the trailing one-hour
window. -/
def hourlyCount (s : QueueState) (t : JobType) (now : Int) : Nat :=
  ((s.hourly_counters t).filter (fun ts => now - 3600 < ts)).length

/-- `JobQueue.get_job`: pops the heap minimum; if `_check_rate_limits` fails
for its type the item is pushed back unchanged and `None` is returned;
otherwise the job data is marked processing/started, the hourly counter
records `now`, and the data is returned. The `asyncio.timeout` wrapper and
database update are elided. -/
def get_job (s : QueueState) (now : Int) : Option JobData × QueueState :=
  match popMin s.priority_queue with
  | none => (none, s)
  | some (prioritized_job, restq) =>
    let job_type := prioritized_job.job_data.job_type
    if !check_rate_limits s job_type now then
      (none, { s with priority_queue := heappush restq prioritized_job })
    else
      let job_data :=
        { prioritized_job.job_data with
          status := .processing
          started_at := some now }
      (some job_data,
        { s with
          priority_queue := restq
          hourly_counters := fun t =>
            if t = job_type then s.hourly_counters job_type ++ [now]
            else s.hourly_counters t })

/-- A `JobResult` entry as far as `_cleanup_old_results` inspects it. -/
structure JobResultRec where
  job_id : String
  completed_at : Option Int
deriving DecidableEq, Repr

/-- `JobQueue._cleanup_old_results` (default `hours_old=24`): drops job
results completed before the cutoff and filters every type's hourly-counter
list down to timestamps newer than the cutoff. `job_results` is passed and
returned explicitly. -/
def cleanup_old_results (s : QueueState) (job_results : List JobResultRec)
    (now : Int) (hours_old : Int := 24) : QueueState × List JobResultRec :=
  let cutoff_time := now - hours_old * 3600
  let job_results' := job_results.filter (fun r =>
    match r.completed_at with
    | some t => !decide (t < cutoff_time)
    | none => true)
  ({ s with
      hourly_counters := fun t =>
        (s.hourly_counters t).filter (fun ts => cutoff_time < ts) },
    job_results')

/-- One element of the `"queue"` array written by `save_queue_state`. -/
structure QueueSnapshotItem where
  priority : Nat
  timestamp : Int
  job_id : String
  job_data : JobData
deriving DecidableEq, Repr

/-- The on-disk queue snapshot (`job_queue.json`). -/
structure QueueSnapshot where
  queue : List QueueSnapshotItem
  job_counters : List (JobType × Counters)
  saved_at : Int
deriving DecidableEq, Repr

/-- `JobQueue.save_queue_state`: serializes every queued `PrioritizedJob`
(priority, timestamp, job_id, job_data) and the per-type counter dicts. -/
def save_queue_state (s : QueueState) (now : Int) : QueueSnapshot :=
  { queue := s.priority_queue.map (fun pj =>
      { priority := pj.priority
        timestamp := pj.timestamp
        job_id := pj.job_id
        job_data := pj.job_data })
    job_counters := jobTypeList.map (fun t => (t, s.job_counters t))
    saved_at := now }

/-- First-match association-list lookup (Python `dict` access). -/
def alookup {α β : Type} [DecidableEq α] : List (α × β) → α → Option β
  | [], _ => none
  | (k, v) :: rest, key => if k = key then some v else alookup rest key

/-- `JobQueue.load_queue_state`: rebuilds the heap by pushing each saved item
in file order and overwrites the counters of every job type present in the
snapshot (unknown type strings are skipped; snapshot typing already rules
them out here). -/
def load_queue_state (s : QueueState) (snap : QueueSnapshot) : QueueState :=
  { s with
    priority_queue := snap.queue.foldl (fun q item =>
      heappush q
        { priority := item.priority
          timestamp := item.timestamp
          job_id := item.job_id
          job_data := item.job_data }) []
    job_counters := fun t =>
      match alookup snap.job_counters t with
      | some c => c
      | none => s.job_counters t }

/-- Python dict assignment `d[k] = v`: replace the first binding of `k` in
place, or append a new binding. -/
def dictSet {α β : Type} [DecidableEq α] : List (α × β) → α → β → List (α × β)
  | [], k, v => [(k, v)]
  | (k', v') :: rest, k, v =>
    if k' = k then (k, v) :: rest else (k', v') :: dictSet rest k v

/-- Python `del d[k]`. -/
def dictRemove {α β : Type} [DecidableEq α] (l : List (α × β)) (k : α) :
    List (α × β) :=
  l.filter (fun kv => kv.1 ≠ k)

/-- `PipelineStage` enum from state_manager.py. -/
inductive PipelineStage where
  | idle | trend_detection | script_generation | asset_gathering
  | voiceover_generation | video_assembly | thumbnail_generation
  | quality_check | approval_pending | youtube_upload | completed | failed
deriving DecidableEq, Repr

/-- A value stored in (or passed for) `PipelineState.stage`. The field is
annotated `PipelineStage`, but Python does not enforce it:
`EnhancedPipeline._execute_pipeline` passes plain stage-name strings, and an
enum member never compares equal to a string. -/
inductive StageArg where
  | enum : PipelineStage → StageArg
  | str : String → StageArg
deriving DecidableEq, Repr

/-- The `StageResult` dict a stage collaborator returns
(`{success: bool, error?: string}`). -/
structure StageResult where
  success : Bool
  error : Option String
deriving DecidableEq, Repr

/-- The dict `EnhancedPipeline._execute_pipeline` returns. On success the
source adds artifact paths and a message; only the keys the claims inspect
are carried. -/
structure ExecResult where
  success : Bool
  error : Option String
  failed_stage : Option String
deriving DecidableEq, Repr

/-- A dynamically-typed Python value, as stored in the `progress`, `result`
and `error` slots of `JobState` (the source passes `None`, floats, strings
and result dicts through these positions interchangeably). -/
inductive PyVal where
  | vnone
  | vnum : Rat → PyVal
  | vstr : String → PyVal
  | vres : ExecResult → PyVal
deriving DecidableEq, Repr

/-- `PipelineState` dataclass from state_manager.py. -/
structure PipelineState where
  pipeline_id : String
  stage : StageArg := .enum .idle
  current_job_id : Option String := none
  start_time : Option Int := none
  end_time : Option Int := none
  progress : Rat := 0
  error_message : Option String := none
  metadata : List (String × StageResult) := []
deriving DecidableEq, Repr

/-- `JobState` dataclass from state_manager.py. `status` is a plain string
(`"pending"`, `"processing"`, `"completed"`, `"failed"`). -/
structure JobState where
  job_id : String
  job_type : String
  status : String := "pending"
  created_at : Int
  started_at : Option Int := none
  completed_at : Option Int := none
  progress : PyVal := .vnum 0
  result : PyVal := .vnone
  error : PyVal := .vnone
deriving DecidableEq, Repr

/-- The in-memory state of `StateManager` the claims touch (resource history,
file handles, the db manager and `last_save_time` are elided; `save_state`
has no in-memory effect and is dropped at each call site). -/
structure SMState where
  active_pipelines : List (String × PipelineState)
  active_jobs : List (String × JobState)
  recovery_needed : Bool
deriving DecidableEq, Repr

/-- `StateManager.create_pipeline_state`: inserts a fresh `PipelineState`. -/
def create_pipeline_state (s : SMState) (pipeline_id : String) : SMState :=
  { s with
    active_pipelines :=
      dictSet s.active_pipelines pipeline_id { pipeline_id := pipeline_id } }

/-- `StateManager.update_pipeline_stage`: auto-creates a missing run, then
unconditionally sets `stage` and `progress`, merges non-empty `metadata`, and
stamps `start_time`/`end_time` when the requested stage compares equal to the
relevant enum members. The source mutates the object held in the dict, which
collapses to storing the updated record. -/
def update_pipeline_stage (s : SMState) (pipeline_id : String)
    (stage : StageArg) (progress : Rat)
    (metadata : List (String × StageResult)) (now : Int) : SMState :=
  let state :=
    match alookup s.active_pipelines pipeline_id with
    | none => { pipeline_id := pipeline_id : PipelineState }
    | some st => st
  let state := { state with stage := stage, progress := progress }
  let state :=
    if metadata = [] then state
    else { state with
           metadata := metadata.foldl (fun m kv => dictSet m kv.1 kv.2) state.metadata }
  let state :=
    if stage = .enum .trend_detection ∧ state.start_time = (none : Option Int) then
      { state with start_time := some now }
    else if stage = .enum .completed ∨ stage = .enum .failed then
      { state with end_time := some now }
    else state
  { s with active_pipelines := dictSet s.active_pipelines pipeline_id state }

/-- `StateManager.create_job_state`. -/
def create_job_state (s : SMState) (job_id job_type : String) (now : Int) :
    SMState :=
  { s with
    active_jobs :=
      dictSet s.active_jobs job_id
        { job_id := job_id, job_type := job_type, created_at := now } }

/-- `StateManager.update_job_status`: with an unknown `job_id` it logs a
warning and returns before touching anything; otherwise it overwrites
`status`/`progress` and stamps `started_at` or `completed_at`/`result`/
`error` depending on the status string. -/
def update_job_status (s : SMState) (job_id status : String)
    (progress result error : PyVal) (now : Int) : SMState :=
  match alookup s.active_jobs job_id with
  | none => s
  | some state =>
    let state := { state with status := status, progress := progress }
    let state :=
      if status = "processing" ∧ state.started_at = none then
        { state with started_at := some now }
      else if status = "completed" ∨ status = "failed" then
        { state with completed_at := some now, result := result, error := error }
      else state
    { s with active_jobs := dictSet s.active_jobs job_id state }

/-- `StateManager.cleanup_old_states`: deletes pipelines whose `end_time`
and jobs whose `completed_at` predate the cutoff (entries without those
stamps are kept). -/
def cleanup_old_states (s : SMState) (now : Int) (hours_old : Int := 24) :
    SMState :=
  let cutoff_time := now - hours_old * 3600
  { s with
    active_pipelines := s.active_pipelines.filter (fun kv =>
      match kv.2.end_time with
      | some t => !decide (t < cutoff_time)
      | none => true)
    active_jobs := s.active_jobs.filter (fun kv =>
      match kv.2.completed_at with
      | some t => !decide (t < cutoff_time)
      | none => true) }

/-- `StateManager.check_recovery_needed`: false when no state file exists,
else true iff some pipeline is non-terminal or some job is pending or
processing. -/
def check_recovery_needed (s : SMState) (state_file_exists : Bool) : Bool :=
  if !state_file_exists then false
  else
    s.active_pipelines.any (fun kv =>
      !(kv.2.stage == StageArg.enum .completed
        || kv.2.stage == StageArg.enum .failed))
    || s.active_jobs.any (fun kv =>
      kv.2.status == "pending" || kv.2.status == "processing")

/-- `StateManager.recover_state`: loading the pickled recovery data has no
effect on the job/pipeline tables (the branch body is `pass`); the method
then runs `cleanup_old_states(hours_old=1)` and clears the recovery flag. -/
def recover_state (s : SMState) (now : Int) : SMState :=
  { cleanup_old_states s now 1 with recovery_needed := false }

/-- `PipelineJob` container from enhanced_pipeline.py (the fields the claims
touch; artifact slots are elided). -/
structure PipelineJob where
  job_id : String
  job_type : String
  status : String := "pending"
  error : Option String := none
  created_at : Int
  completed_at : Option Int := none
deriving DecidableEq, Repr

/-- The in-memory state of `EnhancedPipeline` the claims touch (providers,
config, the job queue handle and the processing task are elided). -/
structure EPState where
  active_jobs : List (String × PipelineJob)
  sm : SMState
  stats_total : Nat := 0
  stats_completed : Nat := 0
  stats_failed : Nat := 0
  stats_videos : Nat := 0
deriving DecidableEq, Repr

/-- The ordered `stages` list of `EnhancedPipeline._execute_pipeline`. -/
def pipelineStages : List String :=
  ["trend_detection", "script_generation", "asset_gathering",
   "voiceover_generation", "video_assembly", "quality_check"]

/-- Python string formatting of an optional error (`f"... {None}"` prints
`None`). -/
def pyOptStr : Option String → String
  | none => "None"
  | some s => s

/-- The stage loop of `EnhancedPipeline._execute_pipeline`, parameterized by
the behavior `f` of the stage functions (each is an external collaborator
returning a `StageResult`; an exception raised by a stage is handled by the
source exactly like an explicit failure result, so total `f` loses no case).
Per iteration: advance the pipeline run to the stage-name *string* at
progress 0, run the stage, stop with a failure dict naming the stage if it
failed, otherwise record progress 1 with the result in the metadata. -/
def execStages (f : String → StageResult) (job_id : String) (now : Int) :
    List String → SMState → ExecResult × SMState
  | [], sm => ({ success := true, error := none, failed_stage := none }, sm)
  | stage_name :: rest, sm =>
    let sm1 := update_pipeline_stage sm ("job_" ++ job_id) (.str stage_name) 0 [] now
    let stage_result := f stage_name
    if !stage_result.success then
      ({ success := false
         error := some ("Stage " ++ stage_name ++ " failed: "
                        ++ pyOptStr stage_result.error)
         failed_stage := some stage_name }, sm1)
    else
      let sm2 := update_pipeline_stage sm1 ("job_" ++ job_id) (.str stage_name) 1
        [("result", stage_result)] now
      execStages f job_id now rest sm2

/-- `EnhancedPipeline._execute_pipeline`. -/
def execute_pipeline (f : String → StageResult) (job_id : String) (now : Int)
    (sm : SMState) : ExecResult × SMState :=
  execStages f job_id now pipelineStages sm

/-- `EnhancedPipeline.process_job`: unknown ids fail fast; otherwise the job
is marked processing, run through `_execute_pipeline`, then marked
completed/failed (the failure error embeds the stage name via the result
dict), the per-pipeline stats are bumped and the job is dropped from
`active_jobs`. The source's `update_job_status` calls pass `result` in the
`progress` slot on success and `job.error` in the `result` slot on failure
(positional arguments); the model reproduces those positions. -/
def process_job (f : String → StageResult) (ep : EPState) (job_id : String)
    (now : Int) : ExecResult × EPState :=
  match alookup ep.active_jobs job_id with
  | none =>
    ({ success := false
       error := some ("Job " ++ job_id ++ " not found")
       failed_stage := none }, ep)
  | some job =>
    let sm1 := update_job_status ep.sm job_id "processing" (.vnum 0) .vnone .vnone now
    let job1 := { job with status := "processing" }
    let ep1 := { ep with sm := sm1, active_jobs := dictSet ep.active_jobs job_id job1 }
    let result_sm := execute_pipeline f job_id now ep1.sm
    let result := result_sm.1
    let sm2 := result_sm.2
    if result.success then
      let job2 := { job1 with status := "completed", completed_at := some now }
      let sm3 := update_job_status sm2 job_id "completed" (.vres result) .vnone .vnone now
      (result,
        { ep1 with
          sm := sm3
          active_jobs := dictRemove (dictSet ep1.active_jobs job_id job2) job_id
          stats_completed := ep1.stats_completed + 1
          stats_videos := ep1.stats_videos + 1 })
    else
      let err := result.error.getD "Unknown error"
      let job2 := { job1 with
                    status := "failed", error := some err, completed_at := some now }
      let sm3 := update_job_status sm2 job_id "failed" .vnone (.vstr err) .vnone now
      (result,
        { ep1 with
          sm := sm3
          active_jobs := dictRemove (dictSet ep1.active_jobs job_id job2) job_id
          stats_failed := ep1.stats_failed + 1 })

theorem alookup_dictSet_self {α β : Type} [DecidableEq α]
    (l : List (α × β)) (k : α) (v : β) :
    alookup (dictSet l k v) k = some v := by
  induction l with
  | nil => simp [dictSet, alookup]
  | cons kv rest ih =>
    obtain ⟨k', v'⟩ := kv
    by_cases h : k' = k
    · simp [dictSet, h, alookup]
    · simp [dictSet, h, alookup, ih]

theorem alookup_dictRemove_self {α β : Type} [DecidableEq α]
    (l : List (α × β)) (k : α) :
    alookup (dictRemove l k) k = none := by
  induction l with
  | nil => simp [dictRemove, alookup]
  | cons kv rest ih =>
    obtain ⟨k', v'⟩ := kv
    by_cases h : k' = k
    · simpa [dictRemove, h] using ih
    · simpa [dictRemove, h, alookup, ih] using ih

/-- After any `update_pipeline_stage` call the run exists and carries exactly
the requested stage value. -/
theorem update_pipeline_stage_stage (s : SMState) (pid : String)
    (stage : StageArg) (progress : Rat) (md : List (String × StageResult))
    (now : Int) :
    (alookup (update_pipeline_stage s pid stage progress md now).active_pipelines
        pid).map PipelineState.stage = some stage := by
  unfold update_pipeline_stage
  rw [alookup_dictSet_self]
  repeat' split
  all_goals rfl

theorem update_pipeline_stage_jobs (s : SMState) (pid : String)
    (stage : StageArg) (progress : Rat) (md : List (String × StageResult))
    (now : Int) :
    (update_pipeline_stage s pid stage progress md now).active_jobs
      = s.active_jobs := rfl

theorem update_job_status_pipelines (s : SMState) (jid status : String)
    (progress result error : PyVal) (now : Int) :
    (update_job_status s jid status progress result error now).active_pipelines
      = s.active_pipelines := by
  unfold update_job_status
  cases alookup s.active_jobs jid <;> rfl

theorem update_job_status_status {s : SMState} {jid : String} {st : JobState}
    (h : alookup s.active_jobs jid = some st) (status : String)
    (progress result error : PyVal) (now : Int) :
    (alookup (update_job_status s jid status progress result error now).active_jobs
        jid).map JobState.status = some status := by
  unfold update_job_status
  rw [h]
  simp only [alookup_dictSet_self]
  split
  · rfl
  · split <;> rfl

theorem execStages_jobs (f : String → StageResult) (job_id : String)
    (now : Int) (stages : List String) (sm : SMState) :
    (execStages f job_id now stages sm).2.active_jobs = sm.active_jobs := by
  induction stages generalizing sm with
  | nil => rfl
  | cons stage_name rest ih =>
    simp only [execStages]
    by_cases h : !(f stage_name).success
    · simp only [if_pos h]
      exact update_pipeline_stage_jobs ..
    · simp only [if_neg h]
      rw [ih]
      rw [update_pipeline_stage_jobs, update_pipeline_stage_jobs]

/-- Three jobs created with priorities low, high, normal (in that enqueue
order, at strictly increasing clock values), job type script_generation,
starting from a freshly initialized queue. -/
def threeJobQueue : QueueState :=
  create_job (create_job (create_job emptyQueueState
    .script_generation "payload1" .low "L" 0)
    .script_generation "payload2" .high "H" 1)
    .script_generation "payload3" .normal "N" 2

/-- C1: the claim states that enqueues with priorities low, high, normal
dequeue as high, normal, low. Evaluating `create_job`/`get_job` at exactly
that input (no rate limit saturated) yields the order low, normal, high:
`heapq` is a min-heap and `create_job` pushes the raw `priority.value`
(LOW=0 < NORMAL=1 < HIGH=2) without negation, so the LOWEST priority
dequeues first. -/
theorem c1_low_priority_dequeues_first :
    ((get_job threeJobQueue 10).1.map JobData.job_id = some "L")
    ∧ ((get_job (get_job threeJobQueue 10).2 11).1.map JobData.job_id = some "N")
    ∧ ((get_job (get_job (get_job threeJobQueue 10).2 11).2 12).1.map
        JobData.job_id = some "H") := by
  refine ⟨?_, ?_, ?_⟩ <;> rfl

/-- A state manager holding one pipeline run `"p"` already at the terminal
stage `completed`. -/
def completedRunState : SMState :=
  { active_pipelines :=
      [("p", { pipeline_id := "p", stage := .enum .completed, end_time := some 0 })]
    active_jobs := []
    recovery_needed := false }

/-- C2 counterexample: with run `"p"` at `completed`, the source accepts
`update_pipeline_stage("p", VIDEO_ASSEMBLY)` and overwrites the stage — the
claimed rejection of updates after a terminal stage (and of backward
transitions generally) does not exist in the code. -/
theorem c2_counterexample_terminal_stage_overwritten :
    (alookup (update_pipeline_stage completedRunState "p"
        (.enum .video_assembly) 0 [] 5).active_pipelines "p").map
      PipelineState.stage = some (.enum .video_assembly)
    ∧ StageArg.enum .video_assembly ≠ StageArg.enum .completed := by
  exact ⟨rfl, by decide⟩

/-- C2 amended: `update_pipeline_stage` performs no ordering check at all —
after any call (any current stage, including `completed` and `failed`, and
any requested stage, including earlier ones) the run exists and its stage is
exactly the requested value. -/
theorem c2_stage_update_unconditional (s : SMState) (pid : String)
    (stage : StageArg) (progress : Rat) (md : List (String × StageResult))
    (now : Int) :
    (alookup (update_pipeline_stage s pid stage progress md now).active_pipelines
        pid).map PipelineState.stage = some stage :=
  update_pipeline_stage_stage s pid stage progress md now

/-- A persisted state-manager snapshot holding a single job `"j1"` whose
status is `processing` (never completed). -/
def processingJobState : SMState :=
  { active_pipelines := []
    active_jobs := [("j1", { job_id := "j1", job_type := "video_creation",
                             status := "processing", created_at := 0 })]
    recovery_needed := false }

/-- C3: with a persisted `processing` job, `check_recovery_needed` does
return true, but `recover_state` (whose recovery-data branch is `pass` and
which otherwise only runs `cleanup_old_states(hours_old=1)`, skipping jobs
without `completed_at`) leaves the job's status at `processing` — it is
neither marked failed nor re-enqueued, contradicting the claim. -/
theorem c3_recover_leaves_job_processing :
    check_recovery_needed processingJobState true = true
    ∧ (alookup (recover_state processingJobState 1000000).active_jobs "j1").map
        JobState.status = some "processing" := by
  exact ⟨rfl, rfl⟩

/-- A queue holding one pending trend_research job whose hourly-counter list
still contains the stale timestamp `0`, far older than one hour before the
current clock `100000`. -/
def staleWindowQueue : QueueState :=
  { priority_queue := [⟨1, 0, "J",
      { job_id := "J", job_type := .trend_research, priority := 1, data := "d",
        created_at := 0, status := .pending }⟩]
    active_jobs := []
    hourly_counters := fun t => if t = .trend_research then [0] else []
    job_counters := fun _ => Counters.zero }

/-- C9 counterexample: `get_job` at clock 100000 runs `_check_rate_limits`
for trend_research (and releases the job, proving the check ran to
completion), yet the stale timestamp `0` — older than the one-hour window,
since `0 ≤ 100000 - 3600` — is still stored afterwards: the check only
counts timestamps inside the window, it never evicts the old ones. -/
theorem c9_counterexample_stale_timestamp_kept :
    (get_job staleWindowQueue 100000).1.isSome = true
    ∧ (get_job staleWindowQueue 100000).2.hourly_counters .trend_research
        = [0, 100000]
    ∧ (0 : Int) ≤ 100000 - 3600 := by
  exact ⟨rfl, rfl, by decide⟩

/-- C9 amended: the rate-limit check retains stale timestamps; eviction
instead happens in `_cleanup_old_results`, whose cutoff is 24 hours (its
default `hours_old`), not the one-hour window width: after a cleanup pass no
timestamp older than 24 hours remains in any type's list. -/
theorem c9_cleanup_evicts_old_timestamps (s : QueueState)
    (job_results : List JobResultRec) (now : Int) (t : JobType) :
    (((cleanup_old_results s job_results now 24).1.hourly_counters t).all
      (fun ts => decide (now - 24 * 3600 < ts))) = true := by
  unfold cleanup_old_results
  rw [List.all_eq_true]
  intro ts hts
  simp only [List.mem_filter] at hts
  exact hts.2

/-- C10: `update_job_status` with an unknown `job_id` returns before touching
any state (the whole `StateManager` state is unchanged, so no job state is
created and none modified), whereas `update_pipeline_stage` with an unknown
pipeline id auto-creates the run. -/
theorem c10_update_job_status_missing_id_noop
    (s : SMState) (jid pid status : String) (progress result error : PyVal)
    (stage : StageArg) (pr : Rat) (md : List (String × StageResult)) (now : Int) :
    (alookup s.active_jobs jid = none →
      update_job_status s jid status progress result error now = s)
    ∧ (alookup s.active_pipelines pid = none →
      (alookup (update_pipeline_stage s pid stage pr md now).active_pipelines
          pid).isSome = true) := by
  constructor
  · intro h
    unfold update_job_status
    rw [h]
  · intro _
    have h2 := update_pipeline_stage_stage s pid stage pr md now
    cases halo : alookup (update_pipeline_stage s pid stage pr md now).active_pipelines pid with
    | none => rw [halo] at h2; simp at h2
    | some st => simp

theorem c10_witness :
    update_job_status ⟨[], [], false⟩ "x" "failed" .vnone .vnone .vnone 0
      = ⟨[], [], false⟩
    ∧ (alookup (update_pipeline_stage ⟨[], [], false⟩ "p" (.enum .idle) 0 [] 0
        ).active_pipelines "p").isSome = true := by
  have h := c10_update_job_status_missing_id_noop ⟨[], [], false⟩ "x" "p"
    "failed" .vnone .vnone .vnone (.enum .idle) 0 [] 0
  exact ⟨h.1 rfl, h.2 rfl⟩

theorem length_filter_and_le (l : List ActiveTask) (t : JobType) :
    (l.filter (fun j => !j.done && j.job_type == t)).length
      ≤ (l.filter (fun j => !j.done)).length := by
  induction l with
  | nil => simp
  | cons a l ih =>
    simp only [List.filter_cons]
    cases hd : (!a.done)
    · simp [hd, ih]
    · cases ht : (a.job_type == t) <;> simp [hd, ht] <;> omega

/-- C5: whenever `_check_rate_limits` returns true for a job type, the
number of in-flight jobs of that type is strictly below its
`max_concurrent` (the source compares the count of in-flight jobs of ALL
types against the cap, which bounds the per-type count from above) and the
number of recorded calls of that type in the trailing hour is strictly below
its `per_hour`. -/
theorem c5_rate_check_true_implies_both_caps (s : QueueState) (t : JobType)
    (now : Int) (h : check_rate_limits s t now = true) :
    inFlightOfType s t < max_concurrent t
    ∧ hourlyCount s t now < per_hour t := by
  simp only [check_rate_limits] at h
  split at h
  · simp at h
  · split at h
    · simp at h
    · rename_i h1 h2
      constructor
      · have hle := length_filter_and_le s.active_jobs t
        unfold inFlightOfType
        omega
      · unfold hourlyCount
        omega

theorem c5_witness :
    inFlightOfType emptyQueueState .trend_research
        < max_concurrent .trend_research
    ∧ hourlyCount emptyQueueState .trend_research 0
        < per_hour .trend_research :=
  c5_rate_check_true_implies_both_caps emptyQueueState .trend_research 0 rfl

/-- C8: when `get_job` pops the heap minimum but the rate-limit check fails
for its type, the call returns `None`, the popped item is pushed back
unchanged (so the queue holds exactly the jobs it held before, the popped
job's fields — status pending, no started timestamp — included), no
rate-limiter call is recorded in the hourly counters, and no other queue
state changes. -/
theorem c8_rate_limited_requeue (s : QueueState) (now : Int)
    (pj : PrioritizedJob) (restq : List PrioritizedJob)
    (hpop : popMin s.priority_queue = some (pj, restq))
    (hrate : check_rate_limits s pj.job_data.job_type now = false) :
    (get_job s now).1 = none
    ∧ (get_job s now).2.priority_queue = restq ++ [pj]
    ∧ List.Perm (get_job s now).2.priority_queue s.priority_queue
    ∧ (get_job s now).2.hourly_counters = s.hourly_counters
    ∧ (get_job s now).2.active_jobs = s.active_jobs
    ∧ (get_job s now).2.job_counters = s.job_counters := by
  have hcond : (!check_rate_limits s pj.job_data.job_type now) = true := by
    rw [hrate]; rfl
  unfold get_job
  simp only [hpop]
  rw [if_pos hcond]
  refine ⟨rfl, rfl, ?_, rfl, rfl, rfl⟩
  exact (List.perm_append_singleton pj restq).trans (popMin_perm hpop).symm

/-- A pending youtube_upload job in the queue while one not-yet-done task is
already in flight: with `max_concurrent = 1` for uploads the rate check
fails. -/
def uploadJob : PrioritizedJob :=
  ⟨2, 0, "U", { job_id := "U", job_type := .youtube_upload, priority := 2,
                data := "d", created_at := 0, status := .pending }⟩

def saturatedQueue : QueueState :=
  { priority_queue := [uploadJob]
    active_jobs := [⟨"running", .youtube_upload, false⟩]
    hourly_counters := fun _ => []
    job_counters := fun _ => Counters.zero }

theorem c8_witness :
    (get_job saturatedQueue 50).1 = none
    ∧ (get_job saturatedQueue 50).2.priority_queue = [] ++ [uploadJob]
    ∧ List.Perm (get_job saturatedQueue 50).2.priority_queue
        saturatedQueue.priority_queue
    ∧ (get_job saturatedQueue 50).2.hourly_counters
        = saturatedQueue.hourly_counters
    ∧ (get_job saturatedQueue 50).2.active_jobs = saturatedQueue.active_jobs
    ∧ (get_job saturatedQueue 50).2.job_counters
        = saturatedQueue.job_counters :=
  c8_rate_limited_requeue saturatedQueue 50 uploadJob [] rfl rfl

/-- C6: two queued jobs with equal priority and strictly increasing enqueue
timestamps (`create_job` stamps each push with the enqueue-time clock, which
is strictly monotone between two `create_job` calls) dequeue in enqueue
order: the earlier-enqueued job occupies a strictly earlier position in the
dequeue sequence. -/
theorem c6_fifo_within_priority (q : List PrioritizedJob)
    (a b : PrioritizedJob) (ha : a ∈ q) (hb : b ∈ q)
    (hprio : a.priority = b.priority) (hts : a.timestamp < b.timestamp) :
    (dequeueList q).indexOf a < (dequeueList q).indexOf b := by
  have hne : a ≠ b := by
    intro h
    rw [h] at hts
    exact absurd hts (lt_irrefl _)
  have hma : a ∈ dequeueList q := ((dequeueList_perm q).mem_iff).mpr ha
  have hmb : b ∈ dequeueList q := ((dequeueList_perm q).mem_iff).mpr hb
  have hia : (dequeueList q).indexOf a < (dequeueList q).length :=
    List.indexOf_lt_length.mpr hma
  have hib : (dequeueList q).indexOf b < (dequeueList q).length :=
    List.indexOf_lt_length.mpr hmb
  by_contra hcon
  push_neg at hcon
  rcases Nat.lt_or_eq_of_le hcon with hlt | heq
  · have hsorted := dequeueList_sorted q
    have hrel := (List.pairwise_iff_get.mp hsorted)
      ⟨_, hib⟩ ⟨_, hia⟩ (Fin.mk_lt_mk.mpr hlt)
    rw [List.indexOf_get hib, List.indexOf_get hia] at hrel
    rw [pjLeB_iff] at hrel
    omega
  · apply hne
    have ha' := List.indexOf_get hia
    have hb' := List.indexOf_get hib
    have hfin : (⟨(dequeueList q).indexOf a, hia⟩ : Fin (dequeueList q).length)
        = ⟨(dequeueList q).indexOf b, hib⟩ := Fin.ext heq.symm
    rw [← ha', ← hb', hfin]

def fifoJobA : PrioritizedJob :=
  ⟨1, 0, "A", { job_id := "A", job_type := .script_generation, priority := 1,
                data := "a", created_at := 0, status := .pending }⟩

def fifoJobB : PrioritizedJob :=
  ⟨1, 5, "B", { job_id := "B", job_type := .script_generation, priority := 1,
                data := "b", created_at := 5, status := .pending }⟩

theorem c6_witness :
    (dequeueList [fifoJobB, fifoJobA]).indexOf fifoJobA
      < (dequeueList [fifoJobB, fifoJobA]).indexOf fifoJobB :=
  c6_fifo_within_priority [fifoJobB, fifoJobA] fifoJobA fifoJobB
    (by decide) (by decide) (by decide) (by decide)

theorem foldl_heappush (l : List QueueSnapshotItem) (acc : List PrioritizedJob) :
    l.foldl (fun q item =>
      heappush q
        { priority := item.priority
          timestamp := item.timestamp
          job_id := item.job_id
          job_data := item.job_data }) acc
      = acc ++ l.map (fun item =>
        ({ priority := item.priority
           timestamp := item.timestamp
           job_id := item.job_id
           job_data := item.job_data } : PrioritizedJob)) := by
  induction l generalizing acc with
  | nil => simp
  | cons x l ih =>
    rw [List.foldl_cons, ih]
    simp [heappush]

theorem map_toItem_toPJ (l : List QueueSnapshotItem) :
    (l.map (fun item =>
      ({ priority := item.priority
         timestamp := item.timestamp
         job_id := item.job_id
         job_data := item.job_data } : PrioritizedJob))).map
      (fun pj =>
        ({ priority := pj.priority
           timestamp := pj.timestamp
           job_id := pj.job_id
           job_data := pj.job_data } : QueueSnapshotItem)) = l := by
  induction l with
  | nil => rfl
  | cons x l ih => simp [ih]

theorem alookup_canonical (g : JobType → Counters) (t : JobType) :
    alookup (jobTypeList.map (fun t => (t, g t))) t = some (g t) := by
  cases t <;> rfl

/-- C7: loading a queue snapshot whose counter section lists the job types
canonically (as `save_queue_state` itself writes them) and immediately
re-saving it reproduces semantically equal content — the same collection of
pending jobs with their priority, timestamp and payload, and the same
per-type counters. -/
theorem c7_snapshot_round_trip (s0 : QueueState) (snap : QueueSnapshot)
    (g : JobType → Counters) (now : Int)
    (hc : snap.job_counters = jobTypeList.map (fun t => (t, g t))) :
    List.Perm (save_queue_state (load_queue_state s0 snap) now).queue snap.queue
    ∧ (save_queue_state (load_queue_state s0 snap) now).job_counters
        = snap.job_counters := by
  constructor
  · show List.Perm
      ((load_queue_state s0 snap).priority_queue.map _) snap.queue
    unfold load_queue_state
    simp only
    rw [foldl_heappush, List.nil_append, map_toItem_toPJ]
  · show jobTypeList.map
        (fun t => (t, (load_queue_state s0 snap).job_counters t))
      = snap.job_counters
    unfold load_queue_state
    simp only
    rw [hc]
    have hfun : (fun t =>
        (t, match alookup (jobTypeList.map (fun t => (t, g t))) t with
            | some c => c
            | none => s0.job_counters t)) = fun t => (t, g t) := by
      funext t
      rw [alookup_canonical]
    rw [hfun]

def roundTripSnapshot : QueueSnapshot :=
  { queue := [{ priority := 1, timestamp := 3, job_id := "R",
                job_data := { job_id := "R", job_type := .quality_check,
                              priority := 1, data := "rt", created_at := 3,
                              status := .pending } }]
    job_counters := jobTypeList.map (fun t => (t, Counters.zero))
    saved_at := 0 }

theorem c7_witness :
    List.Perm (save_queue_state (load_queue_state emptyQueueState
        roundTripSnapshot) 7).queue roundTripSnapshot.queue
    ∧ (save_queue_state (load_queue_state emptyQueueState
        roundTripSnapshot) 7).job_counters = roundTripSnapshot.job_counters :=
  c7_snapshot_round_trip emptyQueueState roundTripSnapshot
    (fun _ => Counters.zero) 7 rfl

/-- Stage behavior where asset_gathering reports `{success: false,
error: "no assets"}` and every other stage succeeds. -/
def assetFailStages : String → StageResult := fun n =>
  if n = "asset_gathering" then ⟨false, some "no assets"⟩ else ⟨true, none⟩

def c4Pipeline : EPState :=
  { active_jobs := [("j1", { job_id := "j1", job_type := "video_creation",
                             created_at := 0 })]
    sm := { active_pipelines := []
            active_jobs := [("j1", { job_id := "j1",
                                     job_type := "video_creation",
                                     created_at := 0 })]
            recovery_needed := false } }

/-- C4 counterexample: with asset_gathering failing (`error: "no assets"`),
`process_job` does stop there and return the failure with the stage name
embedded — but the job's pipeline run is left at stage `"asset_gathering"`,
which is neither the `failed` enum member nor the string `"failed"`: no code
path moves the run to `failed`, refuting the claim's last clause. -/
theorem c4_counterexample_run_not_failed :
    ((process_job assetFailStages c4Pipeline "j1" 100).1
      = { success := false
          error := some "Stage asset_gathering failed: no assets"
          failed_stage := some "asset_gathering" })
    ∧ ((alookup (process_job assetFailStages c4Pipeline "j1" 100
        ).2.sm.active_pipelines "job_j1").map PipelineState.stage
      = some (.str "asset_gathering"))
    ∧ (StageArg.str "asset_gathering" ≠ StageArg.enum .failed)
    ∧ (StageArg.str "asset_gathering" ≠ StageArg.str "failed") := by
  exact ⟨rfl, rfl, by decide, by decide⟩

theorem update_job_status_lookup_isSome {s : SMState} {jid : String}
    {st : JobState} (h : alookup s.active_jobs jid = some st)
    (status : String) (progress result error : PyVal) (now : Int) :
    (alookup (update_job_status s jid status progress result error now
      ).active_jobs jid).isSome = true := by
  unfold update_job_status
  rw [h]
  simp only [alookup_dictSet_self, Option.isSome_some]

/-- Running `execStages` over the full stage list when trend detection and
script generation succeed and asset gathering fails: the loop stops at
asset_gathering, returning the failure dict, after having advanced the
pipeline run through the first two stages and to `"asset_gathering"` at
progress 0. -/
theorem execStages_asset_fail (f : String → StageResult) (e : String)
    (h1 : (f "trend_detection").success = true)
    (h2 : (f "script_generation").success = true)
    (h3 : f "asset_gathering" = ⟨false, some e⟩)
    (job_id : String) (now : Int) (sm : SMState) :
    execStages f job_id now pipelineStages sm
      = ({ success := false
           error := some ("Stage asset_gathering failed: " ++ e)
           failed_stage := some "asset_gathering" },
         update_pipeline_stage
           (update_pipeline_stage
             (update_pipeline_stage
               (update_pipeline_stage
                 (update_pipeline_stage sm ("job_" ++ job_id)
                   (.str "trend_detection") 0 [] now)
                 ("job_" ++ job_id) (.str "trend_detection") 1
                 [("result", f "trend_detection")] now)
               ("job_" ++ job_id) (.str "script_generation") 0 [] now)
             ("job_" ++ job_id) (.str "script_generation") 1
             [("result", f "script_generation")] now)
           ("job_" ++ job_id) (.str "asset_gathering") 0 [] now) := by
  simp [pipelineStages, execStages, h1, h2, h3, pyOptStr]

/-- C4 amended: on the first stage failure (asset_gathering returning
`success=false` with error `e`), `process_job` stops — the outcome is
independent of the behavior of every later stage, since `f` is arbitrary
beyond the first three stages — the returned result is a failure carrying
`failed_stage = "asset_gathering"` and an error embedding the stage name,
the job's state-manager record ends with status `failed`, and the job is
removed from the pipeline's table; but the job's pipeline run is left at
stage `"asset_gathering"` rather than advanced to `failed`. -/
theorem c4_failure_stops_but_run_left_at_stage
    (f : String → StageResult) (e : String)
    (h1 : (f "trend_detection").success = true)
    (h2 : (f "script_generation").success = true)
    (h3 : f "asset_gathering" = ⟨false, some e⟩)
    (ep : EPState) (job_id : String) (job : PipelineJob) (js : JobState)
    (hjob : alookup ep.active_jobs job_id = some job)
    (hjs : alookup ep.sm.active_jobs job_id = some js)
    (now : Int) :
    (process_job f ep job_id now).1
      = { success := false
          error := some ("Stage asset_gathering failed: " ++ e)
          failed_stage := some "asset_gathering" }
    ∧ (alookup (process_job f ep job_id now).2.sm.active_jobs job_id).map
        JobState.status = some "failed"
    ∧ (alookup (process_job f ep job_id now).2.sm.active_pipelines
        ("job_" ++ job_id)).map PipelineState.stage
        = some (.str "asset_gathering")
    ∧ alookup (process_job f ep job_id now).2.active_jobs job_id = none := by
  have hexec := execStages_asset_fail f e h1 h2 h3 job_id now
    (update_job_status ep.sm job_id "processing" (.vnum 0) .vnone .vnone now)
  have hs1 : (alookup (update_job_status ep.sm job_id "processing"
      (.vnum 0) .vnone .vnone now).active_jobs job_id).isSome = true :=
    update_job_status_lookup_isSome hjs "processing" (.vnum 0) .vnone .vnone now
  obtain ⟨st2, hst2⟩ := Option.isSome_iff_exists.mp hs1
  simp only [process_job, hjob, execute_pipeline]
  rw [hexec]
  simp only [Bool.false_eq_true, if_false]
  refine ⟨trivial, ?_, ?_, ?_⟩
  · apply update_job_status_status
    rw [update_pipeline_stage_jobs, update_pipeline_stage_jobs,
      update_pipeline_stage_jobs, update_pipeline_stage_jobs,
      update_pipeline_stage_jobs]
    exact hst2
  · rw [update_job_status_pipelines]
    exact update_pipeline_stage_stage ..
  · exact alookup_dictRemove_self ..

theorem c4_witness :
    (process_job assetFailStages c4Pipeline "j1" 100).1
      = { success := false
          error := some ("Stage asset_gathering failed: " ++ "no assets")
          failed_stage := some "asset_gathering" }
    ∧ (alookup (process_job assetFailStages c4Pipeline "j1" 100
        ).2.sm.active_jobs "j1").map JobState.status = some "failed"
    ∧ (alookup (process_job assetFailStages c4Pipeline "j1" 100
        ).2.sm.active_pipelines ("job_" ++ "j1")).map PipelineState.stage
        = some (.str "asset_gathering")
    ∧ alookup (process_job assetFailStages c4Pipeline "j1" 100
        ).2.active_jobs "j1" = none :=
  c4_failure_stops_but_run_left_at_stage assetFailStages "no assets"
    rfl rfl rfl c4Pipeline "j1"
    { job_id := "j1", job_type := "video_creation", created_at := 0 }
    { job_id := "j1", job_type := "video_creation", created_at := 0 }
    rfl rfl 100

end ShortSync
